import Mathlib

/-
Verification of the Agent MRI frontend (React/TypeScript) presentation layer.

The definitions below are a shallow embedding of the repository sources:
  frontend/types.ts                       (declared response shape)
  frontend/components/ResultsContainer.tsx (generateTimelineMarkdown, tab wiring,
                                            MRIScoreTab)
  frontend/components/MarkdownViewer.tsx   (line-by-line markdown renderer)
  frontend/components/tabs/TimelineTab.tsx (tagSeverity, getTagClasses, StepCard,
                                            TimelineTab)

JavaScript strings are modelled as Lean String values; JavaScript's
String.prototype.trim is modelled over ASCII whitespace (Char.isWhitespace),
split on a single-character separator coincides with String.splitOn, and
Array.prototype.join is modelled by joinLines below.  Optional string fields
(label, short, text) are modelled as String with "" standing for both the
absent and the empty value: every use site in the sources guards them with
JavaScript truthiness (`step.label || ""`, `if (label)` ...), under which
undefined and "" are indistinguishable.  Optional tags is likewise a list with
[] for absent.  Numbers that the sources treat as integers (step ids, scores,
counts) are modelled as Int or Nat.
-/

namespace AgentMRI

/-- JavaScript String.prototype.trim: drop leading and trailing whitespace. -/
def jsTrim (s : String) : String :=
  String.mk (((s.data.dropWhile Char.isWhitespace).reverse.dropWhile
    Char.isWhitespace).reverse)

/-- Split a character list at every occurrence of sep (JavaScript
String.prototype.split with a one-character separator, on character data). -/
def splitChars (sep : Char) : List Char → List (List Char)
  | [] => [[]]
  | c :: t =>
    if c = sep then [] :: splitChars sep t
    else
      match splitChars sep t with
      | [] => [[c]]
      | h :: r => (c :: h) :: r

/-- JavaScript String.prototype.split with a one-character separator. -/
def jsSplit (sep : Char) (s : String) : List String :=
  (splitChars sep s.data).map String.mk

/-- JavaScript Array.prototype.join("\n"). -/
def joinLines : List String → String
  | [] => ""
  | [l] => l
  | l :: ls => l ++ "\n" ++ joinLines ls

/-- First character of a string, if any. -/
def firstChar (s : String) : Option Char := s.data.head?

/- ---------------- frontend/types.ts ---------------- -/

/-- types.ts: TimelineStep.  `type` is declared as the union
`thought | tool_call | tool_result | memory_update | final_answer`; it is
modelled as String so that the renderer fallbacks (`step.type || "step"`)
stay visible. -/
structure TimelineStep where
  step_id : Int
  type : String
  label : String := ""
  short : String := ""
  text : String := ""
  tags : List String := []
  deriving DecidableEq, Repr

/-- types.ts: RiskLevel = "Low" | "Medium" | "High". -/
inductive RiskLevel where
  | Low
  | Medium
  | High
  deriving DecidableEq, Repr

/-- types.ts: MRIRisk. -/
structure MRIRisk where
  score : Int
  level : RiskLevel
  deriving DecidableEq, Repr

/-- types.ts: MRISummary (by_failure_type is a Record, modelled as an
association list). -/
structure MRISummary where
  total_steps : Nat
  flagged_steps : Nat
  by_failure_type : List (String × Nat) := []
  deriving DecidableEq, Repr

/-- types.ts: InternRunResponse, the declared response shape.  The step
sequence field is named `steps` (the declaration carries the comment
"NOT timeline_steps (important)"). -/
structure InternRunResponse where
  final_answer_md : String
  summary : MRISummary
  risk : MRIRisk
  steps : List TimelineStep
  report_markdown : String
  critic_markdown : String
  deriving DecidableEq, Repr

/- ---------------- TimelineTab.tsx (src/unnamed/part_002) ---------------- -/

/-- TimelineTab.tsx: Severity = "high" | "medium" | "low". -/
inductive Severity where
  | high
  | medium
  | low
  deriving DecidableEq, Repr

/-- TimelineTab.tsx: the `tagSeverity` record, as a partial map from tag
identifier to severity (a missing key yields none, like an absent record
entry in JavaScript). -/
def tagSeverity (tag : String) : Option Severity :=
  if tag = "hallucination_risk" then some .high
  else if tag = "tool_misuse" then some .high
  else if tag = "tool_error" then some .high
  else if tag = "overconfident_no_citation" then some .high
  else if tag = "speculative_metrics" then some .medium
  else if tag = "weak_grounding" then some .medium
  else if tag = "memory_drift" then some .medium
  else if tag = "apology" then some .low
  else none

/-- TimelineTab.tsx, getTagClasses: `const sev = tagSeverity[tag] ?? "low"`. -/
def sevOf (tag : String) : Severity := (tagSeverity tag).getD .low

/-- TimelineTab.tsx: getTagClasses returns the pill class string for a tag. -/
def getTagClasses (tag : String) : String :=
  match sevOf tag with
  | .high => "bg-rose-50 text-rose-700 border border-rose-100"
  | .medium => "bg-amber-50 text-amber-700 border border-amber-100"
  | .low => "bg-slate-50 text-slate-700 border border-slate-200"

/-- TimelineTab.tsx, StepCard: the displayed one-line summary
(`step.short && step.short.trim().length > 0 ? step.short : "short summary"`). -/
def shortText (s : TimelineStep) : String :=
  if 0 < (jsTrim s.short).length then s.short else "short summary"

/-- TimelineTab.tsx, StepCard: the displayed detail body
(`step.text && step.text.trim().length > 0 ? step.text
  : "No detailed trace captured for this step."`). -/
def bodyText (s : TimelineStep) : String :=
  if 0 < (jsTrim s.text).length then s.text
  else "No detailed trace captured for this step."

/-- What the TimelineTab component renders: its fixed empty-state message, or
the step cards. -/
inductive TimelineView where
  | empty
  | trace (steps : List TimelineStep)
  deriving DecidableEq, Repr

/-- TimelineTab.tsx: `if (!steps || steps.length === 0)` shows the
empty-state paragraph, otherwise the step cards.  The Option models the
possibly-undefined `steps` prop. -/
def timelineTabOf (osteps : Option (List TimelineStep)) : TimelineView :=
  match osteps with
  | none => .empty
  | some [] => .empty
  | some (s :: rest) => .trace (s :: rest)

/- ------------- ResultsContainer.tsx: generateTimelineMarkdown ------------- -/

/-- ResultsContainer.tsx line 36: `const stepId = step.step_id || idx + 1`
(0 is falsy in JavaScript). -/
def effStepId (idx : Nat) (s : TimelineStep) : Int :=
  if s.step_id = 0 then (idx : Int) + 1 else s.step_id

/-- ResultsContainer.tsx line 37: `const kind = step.type || "step"`. -/
def effKind (s : TimelineStep) : String :=
  if s.type = "" then "step" else s.type

/-- ResultsContainer.tsx line 43: the step heading before the optional label
suffix: `### Step $-stepId-: \`$-kind-\``. -/
def headerBase (idx : Nat) (s : TimelineStep) : String :=
  "### Step " ++ (toString (effStepId idx s) ++ (": `" ++ (effKind s ++ "`")))

/-- ResultsContainer.tsx lines 43-46: the full step heading, with the
` — label` suffix when the label is non-empty. -/
def headerLine (idx : Nat) (s : TimelineStep) : String :=
  if s.label = "" then headerBase idx s
  else headerBase idx s ++ (" — " ++ s.label)

/-- ResultsContainer.tsx lines 58-64: `text.split('\n')`, each line pushed as
`> line` when its trim is truthy and as a bare `>` otherwise. -/
def blockquoteLines (text : String) : List String :=
  (jsSplit '\n' text).map fun line =>
    if jsTrim line = "" then ">" else "> " ++ line

/-- ResultsContainer.tsx lines 50-53: the `short` paragraph, when short is
truthy. -/
def shortLines (s : TimelineStep) : List String :=
  if s.short = "" then []
  else ["**What this step does:** " ++ s.short, ""]

/-- ResultsContainer.tsx lines 55-66: the blockquoted detail section, when
text is truthy. -/
def textLines (s : TimelineStep) : List String :=
  if s.text = "" then []
  else ["**Detail / excerpt:**", ""] ++ blockquoteLines s.text ++ [""]

/-- ResultsContainer.tsx lines 68-72: the tags line, when tags is non-empty
(`tags.map(t => \`\x60$-t-\x60\`).join(", ")`). -/
def tagsLines (s : TimelineStep) : List String :=
  if s.tags = [] then []
  else ["**MRI tags:** " ++
          String.intercalate ", " (s.tags.map fun t => "`" ++ t ++ "`"), ""]

/-- ResultsContainer.tsx lines 35-75: all lines pushed for one step of the
forEach body. -/
def stepLines (idx : Nat) (s : TimelineStep) : List String :=
  [headerLine idx s, ""] ++ shortLines s ++ textLines s ++ tagsLines s ++ ["---"]

/-- The lines pushed by `steps.forEach((step, idx) => ...)`, starting at
index idx. -/
def stepsLines : Nat → List TimelineStep → List String
  | _, [] => []
  | idx, s :: rest => stepLines idx s ++ stepsLines (idx + 1) rest

/-- ResultsContainer.tsx lines 30-33: the lines pushed before the forEach. -/
def preambleLines : List String :=
  ["## 🕒 Agent Timeline", "",
   "Each block below is one step in the agent run: thoughts, tool calls, memory ops, and the final answer.",
   "---"]

/-- The full `lines` array of generateTimelineMarkdown for a non-empty step
sequence. -/
def timelineLines (steps : List TimelineStep) : List String :=
  preambleLines ++ stepsLines 0 steps

/-- ResultsContainer.tsx line 27: the fixed empty-timeline sentence. -/
def noTimelineSentence : String :=
  "_No structured timeline available for this run yet._"

/-- ResultsContainer.tsx lines 26-78: generateTimelineMarkdown on a step
array. -/
def generateTimelineMarkdown (steps : List TimelineStep) : String :=
  if steps = [] then noTimelineSentence else joinLines (timelineLines steps)

/-- generateTimelineMarkdown as called at line 132: the `!steps` guard also
catches an undefined argument, modelled as none. -/
def generateTimelineMarkdownOpt : Option (List TimelineStep) → String
  | none => noTimelineSentence
  | some steps => generateTimelineMarkdown steps

/-- ResultsContainer.tsx lines 125 and 132 read `data.timeline_steps`.  The
declared InternRunResponse shape (types.ts) has no field of that name — its
step sequence field is `steps`, annotated "NOT timeline_steps (important)" —
so on a response of the declared shape this JavaScript property access
evaluates to undefined, modelled as none. -/
def timelineStepsAccess (_ : InternRunResponse) : Option (List TimelineStep) :=
  none

/-- ResultsContainer.tsx line 125: what the Timeline tab renders. -/
def timelineTabRender (r : InternRunResponse) : TimelineView :=
  timelineTabOf (timelineStepsAccess r)

/-- ResultsContainer.tsx line 132: the markdown content of the Log View tab. -/
def logViewContent (r : InternRunResponse) : String :=
  generateTimelineMarkdownOpt (timelineStepsAccess r)

/- ---------------- ResultsContainer.tsx: MRIScoreTab ---------------- -/

/-- MRIScoreTab line 158: donut colour from the score
(`score < 30 ? green : score < 70 ? amber : red`). -/
def riskColor (score : Int) : String :=
  if score < 30 then "#10B981" else if score < 70 then "#F59E0B" else "#EF4444"

/-- MRIScoreTab lines 159-162: the two chart segments. -/
def chartData (score : Int) : List (String × Int) :=
  [("Risk", score), ("Safe", 100 - score)]

/-- Modelled from the spec (section 4.3, level banding): `score < 30 → Low`,
`30 ≤ score < 70 → Medium`, `score ≥ 70 → High`.  Named definition of the
spec-side contract, to be compared with the view's riskColor. -/
def specLevelBand (score : Int) : RiskLevel :=
  if score < 30 then .Low else if score < 70 then .Medium else .High

/-- The colour family MRIScoreTab associates with each band: the level badge
(lines 193-197) colours Low green, Medium amber, High red, and the donut uses
the matching hex per band. -/
def bandColor : RiskLevel → String
  | .Low => "#10B981"
  | .Medium => "#F59E0B"
  | .High => "#EF4444"

/- ---------------- MarkdownViewer.tsx (src/unnamed/part_001) --------------- -/

/-- line.startsWith('## '). -/
def startsH2 (l : String) : Bool :=
  match l.data with
  | '#' :: '#' :: ' ' :: _ => true
  | _ => false

/-- line.startsWith('# '). -/
def startsH1 (l : String) : Bool :=
  match l.data with
  | '#' :: ' ' :: _ => true
  | _ => false

/-- line.startsWith('> '). -/
def startsBQ (l : String) : Bool :=
  match l.data with
  | '>' :: ' ' :: _ => true
  | _ => false

/-- line.startsWith('- '). -/
def startsDash (l : String) : Bool :=
  match l.data with
  | '-' :: ' ' :: _ => true
  | _ => false

/-- line.startsWith('|'). -/
def startsPipe (l : String) : Bool :=
  l.data.head? == some '|'

/-- After an initial digit: digits then a dot (tail of the regex ^\d+\.). -/
def numDotRest : List Char → Bool
  | [] => false
  | c :: cs => if c = '.' then true else c.isDigit && numDotRest cs

/-- The test /^\d+\./.test(line). -/
def startsNumDot (l : String) : Bool :=
  match l.data with
  | [] => false
  | c :: cs => c.isDigit && numDotRest cs

/-- Scan for three consecutive dashes. -/
def hasTripleDash : List Char → Bool
  | '-' :: '-' :: '-' :: _ => true
  | _ :: t => hasTripleDash t
  | [] => false

/-- line.includes('---'). -/
def includesDashes (l : String) : Bool := hasTripleDash l.data

/-- line starts with the character '#'. -/
def startsHash (l : String) : Bool :=
  match l.data with
  | '#' :: _ => true
  | _ => false

/-- One rendered element of MarkdownViewer.tsx.  tableRow carries the fixed
grid column count of the `grid grid-cols-3` container together with the
non-blank cells; tableSkip is the `return null` of a separator row.  The
isHeader peek at the following line affects only css classes and is not
modelled. -/
inductive Rendered where
  | h3 (text : String)
  | h2 (text : String)
  | hr
  | blockquote (text : String)
  | listItem (text : String)
  | numbered (num : String) (text : String)
  | tableSkip
  | tableRow (gridCols : Nat) (cells : List String)
  | blank
  | para (text : String)
  deriving DecidableEq, Repr

/-- MarkdownViewer.tsx lines 8-76: the per-line dispatch of the renderer, in
source order.  replace('## ', '') on a line that starts with '## ' removes
that leading occurrence, i.e. drops its first three characters, and likewise
for clarity of the other branches. -/
def renderLine (l : String) : Rendered :=
  if startsH2 l then .h3 (String.mk (l.data.drop 3))
  else if startsH1 l then .h2 (String.mk (l.data.drop 2))
  else if jsTrim l = "---" then .hr
  else if startsBQ l then .blockquote (String.mk (l.data.drop 2))
  else if startsDash l then .listItem (String.mk (l.data.drop 2))
  else if startsNumDot l then
    (match jsSplit '.' l with
     | [] => .para l
     | n :: rest => .numbered n (jsTrim (String.intercalate "." rest)))
  else if startsPipe l then
    (if includesDashes l then .tableSkip
     else .tableRow 3 ((jsSplit '|' l).filter fun c => jsTrim c ≠ ""))
  else if jsTrim l = "" then .blank
  else .para l

/- ---------------- claim-side predicates ---------------- -/

/-- A timeline step heading line, as the claims identify one: a line opening
with the h3 marker `### `. -/
def isHeading (l : String) : Bool :=
  match l.data with
  | '#' :: '#' :: '#' :: ' ' :: _ => true
  | _ => false

/-- The step headings emitted by the forEach, in order, starting at idx. -/
def headersFrom : Nat → List TimelineStep → List String
  | _, [] => []
  | idx, s :: rest => headerLine idx s :: headersFrom (idx + 1) rest

/-- Follows the spec's words (section 4.4): a line conforms to the spec's
markdown subset when it is blank, a `---` rule, a `# ` or `## ` heading, a
`- ` or numbered list item, a `> ` blockquote, a `|` table row, or plain
paragraph text (which may carry `**bold**` spans); a line opening with any
other run of `#` marks is a heading construct outside the subset. -/
def specSubsetLine (l : String) : Bool :=
  (jsTrim l = "") || (jsTrim l = "---") || startsH1 l || startsH2 l ||
  startsDash l || startsNumDot l || startsBQ l || startsPipe l ||
  !(startsHash l)

/-- The exact inventory of line forms generateTimelineMarkdown can emit for a
non-empty step sequence. -/
def amendedShape (l : String) : Prop :=
  l = "" ∨ l = "---" ∨ l = "## 🕒 Agent Timeline" ∨
  l = "Each block below is one step in the agent run: thoughts, tool calls, memory ops, and the final answer." ∨
  l = "**Detail / excerpt:**" ∨ l = ">" ∨
  (∃ r, l = "### Step " ++ r) ∨ (∃ r, l = "> " ++ r) ∨
  (∃ r, l = "**What this step does:** " ++ r) ∨
  (∃ r, l = "**MRI tags:** " ++ r)

/-- The eight registered risk-tag identifiers of tagSeverity. -/
def severityRegistry : List String :=
  ["tool_error", "tool_misuse", "hallucination_risk",
   "overconfident_no_citation", "weak_grounding", "speculative_metrics",
   "memory_drift", "apology"]

/- ---------------- concrete sample inputs ---------------- -/

/-- A minimal well-formed step. -/
def exStep : TimelineStep := { step_id := 1, type := "thought" }

/-- A step with summary, multi-line text (with a blank line) and a tag. -/
def wStep1 : TimelineStep :=
  { step_id := 1, type := "thought", short := "thinks",
    text := "line one\n \nline two", tags := ["apology"] }

/-- A labelled tool-call step. -/
def wStep2 : TimelineStep :=
  { step_id := 2, type := "tool_call", label := "search" }

/-- A step with a whitespace-only short and a non-blank text. -/
def wStep3 : TimelineStep :=
  { step_id := 3, type := "tool_result", short := " ", text := "hello" }

/-- A response of the declared shape whose steps field is non-empty. -/
def sampleResponse : InternRunResponse :=
  { final_answer_md := "ok",
    summary := { total_steps := 1, flagged_steps := 0 },
    risk := { score := 0, level := .Low },
    steps := [exStep],
    report_markdown := "report",
    critic_markdown := "critique" }

/- ======================= helper lemmas ======================= -/

theorem data_append_eq (a b : String) : (a ++ b).data = a.data ++ b.data := rfl

theorem str_append_assoc (a b c : String) : (a ++ b) ++ c = a ++ (b ++ c) := by
  apply String.ext
  simp [data_append_eq, List.append_assoc]

theorem str_ne_empty_iff_length (s : String) : s ≠ "" ↔ 0 < s.length := by
  obtain ⟨d⟩ := s
  cases d with
  | nil => simp [String.length]
  | cons c t =>
    constructor
    · intro _
      simp [String.length]
    · intro _ h
      have hd := congrArg String.data h
      simp at hd

theorem dropWhile_append_single (p : Char → Bool) (l : List Char) (a : Char)
    (h : p a = false) : ∃ m, (l ++ [a]).dropWhile p = m ++ [a] := by
  induction l with
  | nil => exact ⟨[], by simp [List.dropWhile_cons, h]⟩
  | cons b l ih =>
    by_cases hb : p b
    · obtain ⟨m, hm⟩ := ih
      exact ⟨m, by simp [List.dropWhile_cons, hb, hm]⟩
    · exact ⟨b :: l, by simp [List.dropWhile_cons, hb]⟩

theorem jsTrim_data_cons (c : Char) (t : List Char)
    (hc : c.isWhitespace = false) :
    ∃ r, (jsTrim (String.mk (c :: t))).data = c :: r := by
  unfold jsTrim
  have h1 : (c :: t).dropWhile Char.isWhitespace = c :: t := by
    simp [List.dropWhile_cons, hc]
  show ∃ r, (((String.mk (c :: t)).data.dropWhile
      Char.isWhitespace).reverse.dropWhile Char.isWhitespace).reverse = c :: r
  rw [show (String.mk (c :: t)).data = c :: t from rfl, h1, List.reverse_cons]
  obtain ⟨m, hm⟩ := dropWhile_append_single Char.isWhitespace t.reverse c hc
  rw [hm]
  exact ⟨m.reverse, by simp⟩

theorem sub_mid (a b c : List Char) : b <:+: a ++ (b ++ c) :=
  ⟨a, c, by simp⟩

/- ======================= Claim C1 ======================= -/

/-- Claim C1 (code bug evaluation): the declared response shape carries the
step sequence in `steps`, but ResultsContainer.tsx reads
`data.timeline_steps`, a field the declared InternRunResponse does not have.
Evaluated at a response whose `steps` field is non-empty, the Timeline tab
renders its empty-state view and the Log View tab renders the fixed
no-timeline sentence, contradicting the claim that a non-empty `steps` field
produces a non-empty timeline and log view. -/
theorem C1_timeline_field_mismatch :
    sampleResponse.steps ≠ []
    ∧ timelineTabRender sampleResponse = TimelineView.empty
    ∧ logViewContent sampleResponse = noTimelineSentence := by
  refine ⟨?_, rfl, rfl⟩
  intro h
  simp [sampleResponse] at h

/- ======================= Claim C4 ======================= -/

/-- Claim C4: the severity registry binds tool_error, tool_misuse,
hallucination_risk and overconfident_no_citation to high; weak_grounding,
speculative_metrics and memory_drift to medium; apology to low; and every
identifier outside the registry has no registry entry, is treated with
severity low, and receives the low-severity pill classes. -/
theorem C4_severity_registry :
    (sevOf "tool_error" = .high ∧ sevOf "tool_misuse" = .high
      ∧ sevOf "hallucination_risk" = .high
      ∧ sevOf "overconfident_no_citation" = .high)
    ∧ (sevOf "weak_grounding" = .medium ∧ sevOf "speculative_metrics" = .medium
      ∧ sevOf "memory_drift" = .medium)
    ∧ sevOf "apology" = .low
    ∧ (∀ tag : String, tag ∉ severityRegistry →
        tagSeverity tag = none ∧ sevOf tag = .low
        ∧ getTagClasses tag = "bg-slate-50 text-slate-700 border border-slate-200") := by
  refine ⟨by decide, by decide, by decide, ?_⟩
  intro tag h
  simp only [severityRegistry, List.mem_cons, List.not_mem_nil, or_false,
    not_or] at h
  obtain ⟨h1, h2, h3, h4, h5, h6, h7, h8⟩ := h
  have hreg : tagSeverity tag = none := by
    simp [tagSeverity, h1, h2, h3, h4, h5, h6, h7, h8]
  refine ⟨hreg, ?_, ?_⟩
  · simp [sevOf, hreg]
  · simp [getTagClasses, sevOf, hreg]

/-- Claim C4 witness: an identifier outside the registry. -/
theorem C4_severity_registry_witness :
    ("mystery_tag" ∉ severityRegistry)
    ∧ (tagSeverity "mystery_tag" = none ∧ sevOf "mystery_tag" = .low
        ∧ getTagClasses "mystery_tag"
            = "bg-slate-50 text-slate-700 border border-slate-200") :=
  ⟨by decide, C4_severity_registry.2.2.2 "mystery_tag" (by decide)⟩

/- ======================= Claim C5 ======================= -/

/-- Claim C5: the score view's banding (riskColor) is equivalent to the
spec's fixed level-banding contract: for every integer score the view colours
the Low band exactly when score < 30, the Medium band exactly when
30 ≤ score < 70, and the High band exactly when score ≥ 70; riskColor is the
band colour of the spec-side band. -/
theorem C5_score_banding :
    ∀ score : Int,
      riskColor score = bandColor (specLevelBand score)
      ∧ (specLevelBand score = RiskLevel.Low ↔ score < 30)
      ∧ (specLevelBand score = RiskLevel.Medium ↔ 30 ≤ score ∧ score < 70)
      ∧ (specLevelBand score = RiskLevel.High ↔ 70 ≤ score) := by
  intro score
  unfold riskColor specLevelBand bandColor
  split_ifs with h1 h2 <;> (simp_all; try omega)

/- ======================= Claim C7 ======================= -/

/-- Claim C7: the step view shows the step's own short (respectively text)
exactly when it is not whitespace-only, and otherwise shows the fixed
field-specific placeholder; the two placeholders are distinct. -/
theorem C7_display_defaulting :
    ∀ s : TimelineStep,
      (jsTrim s.short ≠ "" → shortText s = s.short)
      ∧ (jsTrim s.short = "" → shortText s = "short summary")
      ∧ (jsTrim s.text ≠ "" → bodyText s = s.text)
      ∧ (jsTrim s.text = "" → bodyText s = "No detailed trace captured for this step.")
      ∧ ("short summary" : String) ≠ "No detailed trace captured for this step." := by
  intro s
  refine ⟨?_, ?_, ?_, ?_, by decide⟩
  · intro h
    rw [shortText, if_pos ((str_ne_empty_iff_length _).mp h)]
  · intro h
    rw [shortText, if_neg]
    intro hlen
    exact (str_ne_empty_iff_length _).mpr hlen h
  · intro h
    rw [bodyText, if_pos ((str_ne_empty_iff_length _).mp h)]
  · intro h
    rw [bodyText, if_neg]
    intro hlen
    exact (str_ne_empty_iff_length _).mpr hlen h

/-- Claim C7 witness: a step with a whitespace-only short and a non-blank
text shows the short placeholder and its own text. -/
theorem C7_display_defaulting_witness :
    jsTrim wStep3.short = "" ∧ shortText wStep3 = "short summary"
    ∧ jsTrim wStep3.text ≠ "" ∧ bodyText wStep3 = wStep3.text :=
  ⟨by decide, (C7_display_defaulting wStep3).2.1 (by decide),
   by decide, (C7_display_defaulting wStep3).2.2.1 (by decide)⟩

/- ======================= Claim C8 ======================= -/

/-- Claim C8: generateTimelineMarkdown emits the single fixed no-timeline
sentence exactly for the empty step sequence: it emits it on [], and for no
non-empty step sequence does the generated markdown equal that sentence. -/
theorem C8_empty_timeline_sentence :
    generateTimelineMarkdown [] = noTimelineSentence
    ∧ ∀ (s : TimelineStep) (rest : List TimelineStep),
        generateTimelineMarkdown (s :: rest) ≠ noTimelineSentence := by
  refine ⟨rfl, ?_⟩
  intro s rest h
  have h1 : firstChar (generateTimelineMarkdown (s :: rest)) = some '#' := rfl
  rw [h] at h1
  exact absurd h1 (by decide)

/-- Claim C8 witness: a concrete one-step sequence does not produce the
no-timeline sentence. -/
theorem C8_empty_timeline_sentence_witness :
    generateTimelineMarkdown [exStep] ≠ noTimelineSentence :=
  C8_empty_timeline_sentence.2 exStep []

/- ======================= Claim C9 ======================= -/

/-- Claim C9: for every response, the score chart is built from exactly the
two segments score and 100 - score, whose sum is exactly 100, and both
segments are non-negative precisely when 0 ≤ score ≤ 100 — the view applies
no clamping of its own. -/
theorem C9_chart_segments :
    ∀ r : InternRunResponse,
      (chartData r.risk.score).map Prod.snd = [r.risk.score, 100 - r.risk.score]
      ∧ ((chartData r.risk.score).map Prod.snd).sum = 100
      ∧ ((0 ≤ r.risk.score ∧ 0 ≤ 100 - r.risk.score)
          ↔ (0 ≤ r.risk.score ∧ r.risk.score ≤ 100)) := by
  intro r
  refine ⟨rfl, ?_, ?_⟩
  · simp [chartData]
  · omega

/- ======================= Claim C2 ======================= -/

theorem isHeading_headerLine (idx : Nat) (s : TimelineStep) :
    isHeading (headerLine idx s) = true := by
  unfold headerLine
  split
  · rfl
  · rfl

theorem isHeading_short_line (x : String) :
    isHeading ("**What this step does:** " ++ x) = false := rfl

theorem isHeading_bq_line (x : String) :
    isHeading ("> " ++ x) = false := rfl

theorem isHeading_tags_line (x : String) :
    isHeading ("**MRI tags:** " ++ x) = false := rfl

theorem filter_blockquoteLines (text : String) :
    (blockquoteLines text).filter isHeading = [] := by
  rw [List.filter_eq_nil_iff]
  intro a ha
  obtain ⟨line, _, rfl⟩ := List.mem_map.mp ha
  by_cases hb : jsTrim line = ""
  · simp [hb]
    rfl
  · simp [hb]
    exact isHeading_bq_line line

theorem filter_stepLines (idx : Nat) (s : TimelineStep) :
    (stepLines idx s).filter isHeading = [headerLine idx s] := by
  unfold stepLines
  have h0 : [headerLine idx s, ""].filter isHeading = [headerLine idx s] := by
    rw [List.filter_cons, if_pos (isHeading_headerLine idx s)]
    rfl
  have h1 : (shortLines s).filter isHeading = [] := by
    unfold shortLines
    split
    · rfl
    · rw [List.filter_cons, if_neg (by rw [isHeading_short_line]; simp)]
      rfl
  have h2 : (textLines s).filter isHeading = [] := by
    unfold textLines
    split
    · rfl
    · rw [List.filter_append, List.filter_append, filter_blockquoteLines]
      rfl
  have h3 : (tagsLines s).filter isHeading = [] := by
    unfold tagsLines
    split
    · rfl
    · rw [List.filter_cons, if_neg (by rw [isHeading_tags_line]; simp)]
      rfl
  have h4 : (["---"] : List String).filter isHeading = [] := rfl
  rw [List.filter_append, List.filter_append, List.filter_append,
    List.filter_append, h0, h1, h2, h3, h4]
  simp

theorem filter_stepsLines :
    ∀ (steps : List TimelineStep) (i : Nat),
      (stepsLines i steps).filter isHeading = headersFrom i steps := by
  intro steps
  induction steps with
  | nil => intro i; rfl
  | cons s rest ih =>
    intro i
    simp only [stepsLines, headersFrom, List.filter_append, filter_stepLines,
      ih, List.singleton_append]

theorem headersFrom_length :
    ∀ (steps : List TimelineStep) (i : Nat),
      (headersFrom i steps).length = steps.length := by
  intro steps
  induction steps with
  | nil => intro i; rfl
  | cons s rest ih =>
    intro i
    simp only [headersFrom, List.length_cons, ih]

theorem header_contains (idx : Nat) (s : TimelineStep) (hid : 0 < s.step_id)
    (hty : s.type ≠ "") :
    (toString s.step_id).data <:+: (headerLine idx s).data
    ∧ s.type.data <:+: (headerLine idx s).data := by
  have hid' : ¬ s.step_id = 0 := by omega
  have hbase : (headerBase idx s).data
      = "### Step ".data ++ ((toString s.step_id).data
        ++ (": `".data ++ (s.type.data ++ "`".data))) := by
    simp [headerBase, data_append_eq, effStepId, effKind, hid', hty]
  have base1 : (toString s.step_id).data <:+: (headerBase idx s).data := by
    rw [hbase]
    exact ⟨"### Step ".data, ": `".data ++ (s.type.data ++ "`".data),
      by simp [List.append_assoc]⟩
  have base2 : s.type.data <:+: (headerBase idx s).data := by
    rw [hbase]
    exact ⟨"### Step ".data ++ ((toString s.step_id).data ++ ": `".data),
      "`".data, by simp [List.append_assoc]⟩
  unfold headerLine
  split
  · exact ⟨base1, base2⟩
  · constructor
    · obtain ⟨u, v, huv⟩ := base1
      refine ⟨u, v ++ (" — " ++ s.label).data, ?_⟩
      have hout : (headerBase idx s ++ (" — " ++ s.label)).data
          = (headerBase idx s).data ++ (" — " ++ s.label).data := rfl
      rw [hout, ← huv]
      simp [List.append_assoc]
    · obtain ⟨u, v, huv⟩ := base2
      refine ⟨u, v ++ (" — " ++ s.label).data, ?_⟩
      have hout : (headerBase idx s ++ (" — " ++ s.label)).data
          = (headerBase idx s).data ++ (" — " ++ s.label).data := rfl
      rw [hout, ← huv]
      simp [List.append_assoc]

theorem stepLines_last (idx : Nat) (s : TimelineStep) :
    (stepLines idx s).getLast? = some "---" := by
  unfold stepLines
  rw [List.getLast?_append_of_ne_nil _ (List.cons_ne_nil "---" [])]
  rfl

/-- Claim C2: for every non-empty step sequence the timeline markdown is the
newline-join of its line list, whose heading lines are exactly one per step,
in step order (headersFrom); each step's heading contains the step's step_id
and kind as substrings of its character data (under the declared data model:
positive step_id, non-empty kind); and each step's section opens with its
heading, closes with a `---` rule, and contains no other heading — so
consecutive step sections are separated by a horizontal rule. -/
theorem C2_timeline_sections :
    ∀ steps : List TimelineStep, steps ≠ [] →
      generateTimelineMarkdown steps = joinLines (timelineLines steps)
      ∧ (timelineLines steps).filter isHeading = headersFrom 0 steps
      ∧ (headersFrom 0 steps).length = steps.length
      ∧ (∀ (idx : Nat) (s : TimelineStep), 0 < s.step_id → s.type ≠ "" →
          (toString s.step_id).data <:+: (headerLine idx s).data
          ∧ s.type.data <:+: (headerLine idx s).data)
      ∧ (∀ (idx : Nat) (s : TimelineStep),
          (stepLines idx s).head? = some (headerLine idx s)
          ∧ (stepLines idx s).getLast? = some "---"
          ∧ (stepLines idx s).filter isHeading = [headerLine idx s]) := by
  intro steps hne
  refine ⟨?_, ?_, headersFrom_length steps 0,
    fun idx s hid hty => header_contains idx s hid hty,
    fun idx s => ⟨rfl, stepLines_last idx s, filter_stepLines idx s⟩⟩
  · unfold generateTimelineMarkdown
    rw [if_neg hne]
  · simp only [timelineLines, List.filter_append, filter_stepsLines]
    rw [show preambleLines.filter isHeading = [] from by decide,
      List.nil_append]

/-- Claim C2 witness: a concrete two-step sequence. -/
theorem C2_timeline_sections_witness :
    ([wStep1, wStep2] : List TimelineStep) ≠ []
    ∧ generateTimelineMarkdown [wStep1, wStep2]
        = joinLines (timelineLines [wStep1, wStep2]) :=
  ⟨by decide, (C2_timeline_sections [wStep1, wStep2] (by decide)).1⟩

/- ======================= Claim C3 ======================= -/

theorem shape_empty : amendedShape "" := Or.inl rfl

theorem shape_hr : amendedShape "---" := Or.inr (Or.inl rfl)

theorem shape_t1 : amendedShape "## 🕒 Agent Timeline" :=
  Or.inr (Or.inr (Or.inl rfl))

theorem shape_t2 :
    amendedShape "Each block below is one step in the agent run: thoughts, tool calls, memory ops, and the final answer." :=
  Or.inr (Or.inr (Or.inr (Or.inl rfl)))

theorem shape_detail : amendedShape "**Detail / excerpt:**" :=
  Or.inr (Or.inr (Or.inr (Or.inr (Or.inl rfl))))

theorem shape_gt : amendedShape ">" :=
  Or.inr (Or.inr (Or.inr (Or.inr (Or.inr (Or.inl rfl)))))

theorem shape_header (r : String) : amendedShape ("### Step " ++ r) :=
  Or.inr (Or.inr (Or.inr (Or.inr (Or.inr (Or.inr (Or.inl ⟨r, rfl⟩))))))

theorem shape_bq (r : String) : amendedShape ("> " ++ r) :=
  Or.inr (Or.inr (Or.inr (Or.inr (Or.inr (Or.inr (Or.inr (Or.inl ⟨r, rfl⟩)))))))

theorem shape_short (r : String) :
    amendedShape ("**What this step does:** " ++ r) :=
  Or.inr (Or.inr (Or.inr (Or.inr (Or.inr (Or.inr (Or.inr (Or.inr
    (Or.inl ⟨r, rfl⟩))))))))

theorem shape_tags (r : String) : amendedShape ("**MRI tags:** " ++ r) :=
  Or.inr (Or.inr (Or.inr (Or.inr (Or.inr (Or.inr (Or.inr (Or.inr (Or.inr
    ⟨r, rfl⟩))))))))

theorem header_shape (idx : Nat) (s : TimelineStep) :
    ∃ r, headerLine idx s = "### Step " ++ r := by
  unfold headerLine headerBase
  split
  · exact ⟨_, rfl⟩
  · exact ⟨_, str_append_assoc _ _ _⟩

theorem amendedShape_stepLines (idx : Nat) (s : TimelineStep) (l : String)
    (hl : l ∈ stepLines idx s) : amendedShape l := by
  unfold stepLines at hl
  rcases List.mem_append.mp hl with hl | hl
  · rcases List.mem_append.mp hl with hl | hl
    · rcases List.mem_append.mp hl with hl | hl
      · rcases List.mem_append.mp hl with hl | hl
        · rcases List.mem_cons.mp hl with rfl | hl
          · obtain ⟨r, hr⟩ := header_shape idx s
            rw [hr]
            exact shape_header r
          · rcases List.mem_cons.mp hl with rfl | hl
            · exact shape_empty
            · cases hl
        · unfold shortLines at hl
          split at hl
          · cases hl
          · rcases List.mem_cons.mp hl with rfl | hl
            · exact shape_short s.short
            · rcases List.mem_cons.mp hl with rfl | hl
              · exact shape_empty
              · cases hl
      · unfold textLines at hl
        split at hl
        · cases hl
        · rcases List.mem_append.mp hl with hl | hl
          · rcases List.mem_append.mp hl with hl | hl
            · rcases List.mem_cons.mp hl with rfl | hl
              · exact shape_detail
              · rcases List.mem_cons.mp hl with rfl | hl
                · exact shape_empty
                · cases hl
            · obtain ⟨line, _, rfl⟩ := List.mem_map.mp hl
              by_cases hb : jsTrim line = ""
              · rw [if_pos hb]
                exact shape_gt
              · rw [if_neg hb]
                exact shape_bq line
          · rcases List.mem_cons.mp hl with rfl | hl
            · exact shape_empty
            · cases hl
    · unfold tagsLines at hl
      split at hl
      · cases hl
      · rcases List.mem_cons.mp hl with rfl | hl
        · exact shape_tags _
        · rcases List.mem_cons.mp hl with rfl | hl
          · exact shape_empty
          · cases hl
  · rcases List.mem_cons.mp hl with rfl | hl
    · exact shape_hr
    · cases hl

theorem amendedShape_stepsLines :
    ∀ (steps : List TimelineStep) (i : Nat) (l : String),
      l ∈ stepsLines i steps → amendedShape l := by
  intro steps
  induction steps with
  | nil => intro i l hl; cases hl
  | cons s rest ih =>
    intro i l hl
    rcases List.mem_append.mp hl with hl | hl
    · exact amendedShape_stepLines i s l hl
    · exact ih (i + 1) l hl

/-- Claim C3, counterexample: on a one-step input the generated timeline
line list contains the line `### Step 1: \x60thought\x60`, an h3-heading
construct that is outside the spec's fixed markdown subset (`#`/`##`
headings, lists, `> ` blockquotes, `---` rules, `|` table rows, plain
text with bold spans). -/
theorem C3_markdown_subset_counterexample :
    ("### Step 1: `thought`" : String) ∈ timelineLines [exStep]
    ∧ specSubsetLine "### Step 1: `thought`" = false := by
  constructor
  · decide
  · decide

/-- Claim C3 as amended: the timeline generator's markdown consists only of
blank lines, `---` rules, the fixed `##` timeline heading, the fixed
preamble sentence, `### Step …` step headings (which embed backtick code
spans), `> `-prefixed blockquote lines and bare `>` markers, and
`**bold**`-prefixed text lines; for an empty step sequence it is the single
underscore-italicised no-timeline sentence. -/
theorem C3_amended_markdown_shapes :
    generateTimelineMarkdown [] = noTimelineSentence
    ∧ ∀ (steps : List TimelineStep) (l : String),
        l ∈ timelineLines steps → amendedShape l := by
  refine ⟨rfl, ?_⟩
  intro steps l hl
  rcases List.mem_append.mp hl with hl | hl
  · rcases List.mem_cons.mp hl with rfl | hl
    · exact shape_t1
    · rcases List.mem_cons.mp hl with rfl | hl
      · exact shape_empty
      · rcases List.mem_cons.mp hl with rfl | hl
        · exact shape_t2
        · rcases List.mem_cons.mp hl with rfl | hl
          · exact shape_hr
          · cases hl
  · exact amendedShape_stepsLines steps 0 l hl

/-- Claim C3 witness for the amended statement: a concrete line of a
concrete timeline. -/
theorem C3_amended_markdown_shapes_witness :
    (("---" : String) ∈ timelineLines [exStep]) ∧ amendedShape "---" :=
  ⟨by decide, C3_amended_markdown_shapes.2 [exStep] "---" (by decide)⟩

/- ======================= Claim C6 ======================= -/

theorem mem_stepLines_text {s : TimelineStep} (h : s.text ≠ "") {l : String}
    (hl : l ∈ blockquoteLines s.text) : ∀ idx, l ∈ stepLines idx s := by
  intro idx
  unfold stepLines textLines
  rw [if_neg h]
  refine List.mem_append_left _ (List.mem_append_left _ ?_)
  refine List.mem_append_right _ ?_
  refine List.mem_append_left _ (List.mem_append_right _ ?_)
  exact hl

theorem mem_stepsLines (l : String) (s : TimelineStep) :
    ∀ steps : List TimelineStep, s ∈ steps →
      (∀ idx, l ∈ stepLines idx s) → ∀ i, l ∈ stepsLines i steps := by
  intro steps
  induction steps with
  | nil => intro hs; cases hs
  | cons a rest ih =>
    intro hs hl i
    simp only [stepsLines]
    rcases List.mem_cons.mp hs with rfl | hmem
    · exact List.mem_append_left _ (hl i)
    · exact List.mem_append_right _ (ih hmem hl (i + 1))

/-- Claim C6: in the timeline line list, a step's text is rendered as a
blockquote split line by line: every line of `text` whose trim is non-empty
appears prefixed with `> `, and every whitespace-only line of `text` yields a
bare `>` marker, for every step of the sequence whose text is non-empty. -/
theorem C6_blockquote_lines :
    ∀ (steps : List TimelineStep) (s : TimelineStep), s ∈ steps →
      s.text ≠ "" →
      ∀ line ∈ jsSplit '\n' s.text,
        (jsTrim line ≠ "" → ("> " ++ line) ∈ timelineLines steps)
        ∧ (jsTrim line = "" → (">" : String) ∈ timelineLines steps) := by
  intro steps s hs ht line hline
  constructor
  · intro hnb
    refine List.mem_append_right _ ?_
    refine mem_stepsLines _ s steps hs ?_ 0
    intro idx
    refine mem_stepLines_text ht ?_ idx
    unfold blockquoteLines
    exact List.mem_map.mpr ⟨line, hline, by simp [hnb]⟩
  · intro hb
    refine List.mem_append_right _ ?_
    refine mem_stepsLines _ s steps hs ?_ 0
    intro idx
    refine mem_stepLines_text ht ?_ idx
    unfold blockquoteLines
    exact List.mem_map.mpr ⟨line, hline, by simp [hb]⟩

/-- Claim C6 witness: a step whose text has a non-blank line and a
whitespace-only line. -/
theorem C6_blockquote_lines_witness :
    (wStep1 ∈ [wStep1]) ∧ wStep1.text ≠ ""
    ∧ ("line one" ∈ jsSplit '\n' wStep1.text)
    ∧ jsTrim "line one" ≠ ""
    ∧ (("> " ++ "line one") ∈ timelineLines [wStep1])
    ∧ (" " ∈ jsSplit '\n' wStep1.text) ∧ jsTrim " " = ""
    ∧ ((">" : String) ∈ timelineLines [wStep1]) :=
  ⟨by decide, by decide, by decide, by decide,
   (C6_blockquote_lines [wStep1] wStep1 (by decide) (by decide) "line one"
     (by decide)).1 (by decide),
   by decide, by decide,
   (C6_blockquote_lines [wStep1] wStep1 (by decide) (by decide) " "
     (by decide)).2 (by decide)⟩

/- ======================= Claim C10 ======================= -/

/-- Claim C10: every `|`-prefixed line whose text contains `---` renders as
nothing (the separator row is dropped), and every other `|`-prefixed line
renders as a table row holding its non-blank cells in the fixed three-column
grid, whatever the number of cells. -/
theorem C10_table_rows :
    ∀ l : String, startsPipe l = true →
      (includesDashes l = true → renderLine l = Rendered.tableSkip)
      ∧ (includesDashes l = false →
          renderLine l = Rendered.tableRow 3
            ((jsSplit '|' l).filter fun c => jsTrim c ≠ "")) := by
  intro l hp
  obtain ⟨d⟩ := l
  cases d with
  | nil => simp [startsPipe] at hp
  | cons c t =>
    have hc : c = '|' := by simpa [startsPipe] using hp
    subst hc
    have e1 : startsH2 (String.mk ('|' :: t)) = false := rfl
    have e2 : startsH1 (String.mk ('|' :: t)) = false := rfl
    have e3 : startsBQ (String.mk ('|' :: t)) = false := rfl
    have e4 : startsDash (String.mk ('|' :: t)) = false := rfl
    have e5 : startsNumDot (String.mk ('|' :: t)) = false := rfl
    have e6 : startsPipe (String.mk ('|' :: t)) = true := rfl
    have e7 : ¬ (jsTrim (String.mk ('|' :: t)) = "---") := by
      obtain ⟨r, hr⟩ := jsTrim_data_cons '|' t (by decide)
      intro heq
      rw [heq] at hr
      rw [show "---".data = '-' :: '-' :: '-' :: [] from rfl] at hr
      injection hr with h1 _
      exact absurd h1 (by decide)
    constructor
    · intro hd
      simp [renderLine, e1, e2, e3, e4, e5, e6, e7, hd]
    · intro hd
      simp [renderLine, e1, e2, e3, e4, e5, e6, e7, hd]

/-- Claim C10 witness: a two-cell table row renders with the fixed 3-column
grid, and a separator row is dropped. -/
theorem C10_table_rows_witness :
    startsPipe "| a | b |" = true
    ∧ includesDashes "| a | b |" = false
    ∧ renderLine "| a | b |" = Rendered.tableRow 3
        ((jsSplit '|' "| a | b |").filter fun c => jsTrim c ≠ "")
    ∧ startsPipe "|---|---|" = true
    ∧ includesDashes "|---|---|" = true
    ∧ renderLine "|---|---|" = Rendered.tableSkip :=
  ⟨by decide, by decide,
   (C10_table_rows "| a | b |" (by decide)).2 (by decide),
   by decide, by decide,
   (C10_table_rows "|---|---|" (by decide)).1 (by decide)⟩

end AgentMRI
